import Mathlib

/-!
Verification of the push subscription lifecycle manager
(`components/push/src/lib.rs`) and of the sync15 bridged-engine envelope
(`components/support/sync15-traits/src/bridged_engine.rs`).

The public `PushManager` in `lib.rs` delegates every operation, under a
mutex, to `internal::PushManager`; the `internal` module is not part of the
visible sources, so its operations are modelled from the specification
(sections 4.1 to 4.7 of the design document) and marked as such.  The
`IncomingEnvelope::payload` method is embedded directly from its source.
-/

namespace Push

/-- Classification of a non-2xx relay-service response (spec section 4.4):
transient (server or network trouble), identity-invalid (401/410-class, the
server has forgotten this instance or channel), or permanent (other 4xx). -/
inductive CommClass where
  | transient
  | identityInvalid
  | permanent
  deriving DecidableEq, Repr

/-- Error kinds of the push component (spec section 7). -/
inductive PushError where
  | storageError
  | communicationError (c : CommClass)
  | cryptoError
  | recordNotFoundError
  | registrationError
  deriving DecidableEq, Repr

/-- Per-subscription key material generated by the KeyManager
(spec section 4.2): an EC key pair and an authentication secret. -/
structure KeyMaterial where
  public_key : String
  private_key : String
  auth_secret : String
  deriving DecidableEq, Repr

/-- One subscription record, keyed by channel id (spec section 3). -/
structure PushRecord where
  channel_id : String
  scope : String
  endpoint : String
  keys : KeyMaterial
  server_key : Option String
  deriving DecidableEq, Repr

/-- Change entry returned by `verify_connection`
(`PushSubscriptionChanged` in `msg_types`). -/
structure PushSubscriptionChanged where
  channel_id : String
  scope : String
  deriving DecidableEq, Repr

/-- Public key info of a subscription (`KeyInfo` in `msg_types`):
auth secret and the P-256 public key.  The private key never appears here. -/
structure KeyInfo where
  auth : String
  p256dh : String
  deriving DecidableEq, Repr

/-- Public subscription info (`SubscriptionInfo` in `msg_types`). -/
structure SubscriptionInfo where
  endpoint : String
  keys : KeyInfo
  deriving DecidableEq, Repr

/-- Result of `subscribe` (`SubscriptionResponse` in `msg_types`). -/
structure SubscriptionResponse where
  channel_id : String
  subscription_info : SubscriptionInfo
  deriving DecidableEq, Repr

/-- Persistent state of the manager: the optional connection identity
(the `uaid` assigned by the relay service, spec section 3) and the
subscription store, a list of records keyed by channel id. -/
structure PushState where
  uaid : Option String
  store : List PushRecord
  deriving DecidableEq, Repr

/-- Modelled from the spec: `SubscriptionStore.get` (section 4.3), lookup
of a record by channel id. -/
def findRecord (store : List PushRecord) (chid : String) : Option PushRecord :=
  store.find? (fun r => r.channel_id == chid)

/-- Modelled from the spec: `SubscriptionStore.insert` (section 4.3),
which idempotently overwrites any existing record with the same channel id. -/
def insertRecord (store : List PushRecord) (r : PushRecord) : List PushRecord :=
  r :: store.filter (fun x => x.channel_id != r.channel_id)

/-- Modelled from the spec: `SubscriptionStore.delete` (section 4.3),
removal of the record with the given channel id. -/
def deleteRecord (store : List PushRecord) (chid : String) : List PushRecord :=
  store.filter (fun x => x.channel_id != chid)

/-- Channel ids of the records currently in the store (the local set L). -/
def localIds (st : PushState) : List String :=
  st.store.map (fun r => r.channel_id)

/-- Change entry reported for a record whose endpoint is no longer valid. -/
def recordChanged (r : PushRecord) : PushSubscriptionChanged :=
  { channel_id := r.channel_id, scope := r.scope }

/-- Channel ids named by a `verify_connection` result (empty on error). -/
def reportedIds (res : Except PushError (List PushSubscriptionChanged)) : List String :=
  match res with
  | .ok l => l.map (fun c => c.channel_id)
  | .error _ => []

/-- Modelled from the spec: `RegistrationController.ensure_registered`
(section 4.1).  The relay-service registration call is abstracted as its
result `regRemote`; the last component counts how many registration calls
were performed.  If an identity is stored it is returned with no call; if
not, the instance registers, persists the returned identity immediately
(section 3) and returns it; a rejected registration is fatal. -/
def ensure_registered (st : PushState) (regRemote : Except PushError String) :
    Except PushError String × PushState × Nat :=
  match st.uaid with
  | some u => (.ok u, st, 0)
  | none =>
    match regRemote with
    | .ok u => (.ok u, { st with uaid := some u }, 1)
    | .error e => (.error e, st, 1)

/-- Modelled from the spec: the `subscribe` orchestration (section 4.7).
The relay calls are abstracted as their results: `regRemote` for instance
registration (consulted only when no identity is stored), `createRemote`
for `create_channel` (the endpoint URL on success).  `genChid` stands for
the randomly generated channel id used when `channel_id` is empty, and
`keys` for the KeyManager output.  Returns the result, the new state, and
the number of registration calls performed.  A failing `create_channel` is
fatal and persists no record; on success the record is inserted and the
public subscription info (never the private key) is returned. -/
def subscribe (st : PushState) (channel_id scope : String)
    (server_key : Option String) (regRemote : Except PushError String)
    (genChid : String) (keys : KeyMaterial)
    (createRemote : Except PushError String) :
    Except PushError SubscriptionResponse × PushState × Nat :=
  match ensure_registered st regRemote with
  | (.error e, st1, n) => (.error e, st1, n)
  | (.ok _, st1, n) =>
    let chid := if channel_id = "" then genChid else channel_id
    match createRemote with
    | .error e => (.error e, st1, n)
    | .ok endpoint =>
      let record : PushRecord :=
        { channel_id := chid, scope := scope, endpoint := endpoint,
          keys := keys, server_key := server_key }
      (.ok { channel_id := chid,
             subscription_info :=
               { endpoint := endpoint,
                 keys := { auth := keys.auth_secret, p256dh := keys.public_key } } },
       { st1 with store := insertRecord st1.store record }, n)

/-- Modelled from the spec: `unsubscribe` (section 4.7).  The relay delete
call is abstracted as its result `remote`.  An empty `channel_id` means
"all channels": every local record is deleted and a bulk-delete is issued;
an identity-invalid response fails soft (`false`) instead of erroring.  A
specific `channel_id` with no stored record is a defined not-found outcome
(`false`, store untouched); otherwise that record and the remote channel
are deleted, returning `true` on success and `false` on identity-invalid.
Other remote failures propagate and leave the state as it was. -/
def unsubscribe (st : PushState) (channel_id : String)
    (remote : Except PushError Unit) : Except PushError Bool × PushState :=
  match st.uaid with
  | none => (.error .registrationError, st)
  | some _ =>
    if channel_id = "" then
      match remote with
      | .ok _ => (.ok true, { st with store := [] })
      | .error (.communicationError .identityInvalid) =>
        (.ok false, { st with store := [] })
      | .error e => (.error e, st)
    else
      match findRecord st.store channel_id with
      | none => (.ok false, st)
      | some _ =>
        match remote with
        | .ok _ => (.ok true, { st with store := deleteRecord st.store channel_id })
        | .error (.communicationError .identityInvalid) =>
          (.ok false, { st with store := deleteRecord st.store channel_id })
        | .error e => (.error e, st)

/-- Modelled from the spec: `unsubscribe_all` (the `PushManager` method
wrapping the all-channels case of section 4.7): deletes every local record
and issues a bulk-delete to the relay service. -/
def unsubscribe_all (st : PushState) (remote : Except PushError Unit) :
    Except PushError Unit × PushState :=
  match st.uaid with
  | none => (.error .registrationError, st)
  | some _ =>
    match remote with
    | .ok _ => (.ok (), { st with store := [] })
    | .error (.communicationError .identityInvalid) => (.ok (), { st with store := [] })
    | .error e => (.error e, st)

/-- Modelled from the spec: the ReconciliationEngine `verify_connection`
(section 4.5).  The relay channel-list fetch is abstracted as its result
`remote`.  With no stored identity the result is empty and nothing else
happens.  An identity-invalid response wipes the identity and every record
and reports every previously local channel.  Otherwise channels local but
not remote are lost: their records are deleted and reported; channels in
both sets are untouched and unreported (server-side orphans are handled
best-effort remotely and have no local effect). -/
def verify_connection (st : PushState) (remote : Except PushError (List String)) :
    Except PushError (List PushSubscriptionChanged) × PushState :=
  match st.uaid with
  | none => (.ok [], st)
  | some _ =>
    match remote with
    | .error (.communicationError .identityInvalid) =>
      (.ok (st.store.map recordChanged), { uaid := none, store := [] })
    | .error e => (.error e, st)
    | .ok remoteIds =>
      let lost := st.store.filter (fun r => r.channel_id ∉ remoteIds)
      (.ok (lost.map recordChanged),
       { st with store := st.store.filter (fun r => r.channel_id ∈ remoteIds) })

/-- Decryption backends for the two supported content encodings
(spec section 4.6): the legacy `aesgcm` scheme taking explicit dh/salt
headers, and the `aes128gcm` scheme whose parameters are embedded in the
ciphertext.  Both are external (the rust-ece crate) and abstracted as
functions from the record's key material and ciphertext to a result. -/
structure EceBackends where
  aesgcm : KeyMaterial → String → String → String → Except PushError String
  aes128gcm : KeyMaterial → String → Except PushError String

/-- Modelled from the spec: the DecryptionPipeline `decrypt`
(section 4.6).  Looks up the subscription record by channel id, failing
with `RecordNotFoundError` if absent; selects the scheme by the content
encoding (which defaults to `aes128gcm` when empty, per the `PushManager`
documentation) and decrypts with the record's key material; an unsupported
encoding is a `CryptoError`.  The operation reads but never mutates the
state. -/
def decrypt (st : PushState) (ece : EceBackends)
    (channel_id body encoding salt dh : String) : Except PushError String :=
  match findRecord st.store channel_id with
  | none => .error .recordNotFoundError
  | some r =>
    let enc := if encoding = "" then "aes128gcm" else encoding
    if enc = "aesgcm" then ece.aesgcm r.keys body salt dh
    else if enc = "aes128gcm" then ece.aes128gcm r.keys body
    else .error .cryptoError

/-- One abstract invocation of a state-mutating manager operation, with
every external interaction abstracted as its result (as in the operations
above).  Decryption and metadata lookup are read-only and excluded. -/
inductive PushOp where
  | sub (channel_id scope : String) (server_key : Option String)
      (regRemote : Except PushError String) (genChid : String)
      (keys : KeyMaterial) (createRemote : Except PushError String)
  | unsub (channel_id : String) (remote : Except PushError Unit)
  | unsubAll (remote : Except PushError Unit)
  | verify (remote : Except PushError (List String))

/-- State reached after one manager operation. -/
def stepState (st : PushState) (op : PushOp) : PushState :=
  match op with
  | .sub channel_id scope server_key regRemote genChid keys createRemote =>
    (subscribe st channel_id scope server_key regRemote genChid keys createRemote).2.1
  | .unsub channel_id remote => (unsubscribe st channel_id remote).2
  | .unsubAll remote => (unsubscribe_all st remote).2
  | .verify remote => (verify_connection st remote).2

/-- The channel-id uniqueness invariant of the subscription store
(spec section 3): no two records share a channel id. -/
def uniqIds (st : PushState) : Prop := (localIds st).Nodup

instance (st : PushState) : Decidable (uniqIds st) := by
  unfold uniqIds
  infer_instance

end Push

namespace Sync15

/-- Globally unique record id (`Guid` from the sync15-traits crate). -/
structure Guid where
  raw : String
  deriving DecidableEq, Repr

/-- Modelled from the spec: the sync15 record `Payload` lives in a sibling
module of `bridged_engine.rs` that is not among the visible sources; only
its `id` field is consulted by `IncomingEnvelope::payload`. -/
structure Payload where
  id : Guid
  deriving DecidableEq, Repr

/-- Errors surfaced by `IncomingEnvelope::payload`: a JSON parse failure of
the cleartext, or `MismatchedIdError` carrying the envelope id and the
payload id. -/
inductive PayloadError where
  | parseError (msg : String)
  | mismatchedId (envelope : Guid) (payload : Guid)
  deriving DecidableEq, Repr

/-- An envelope for an incoming item (`IncomingEnvelope` in
`bridged_engine.rs`): BSO metadata plus the decrypted cleartext string. -/
structure IncomingEnvelope where
  id : Guid
  modified : Int
  sortindex : Option Int
  cleartext : String
  deriving DecidableEq, Repr

/-- Embedding of `IncomingEnvelope::payload` (`bridged_engine.rs` lines
147-158).  The external `serde_json::from_str` is abstracted as the
`fromStr` parameter; the `?` operator propagates its error, then the id of
the parsed payload is checked against the envelope id. -/
def IncomingEnvelope.payload (fromStr : String → Except String Payload)
    (e : IncomingEnvelope) : Except PayloadError Payload :=
  match fromStr e.cleartext with
  | .error m => .error (.parseError m)
  | .ok p => if p.id ≠ e.id then .error (.mismatchedId e.id p.id) else .ok p

end Sync15

namespace Sync15

/-- C10: `IncomingEnvelope.payload` returns `ok p` exactly when the
cleartext parses to `p` and `p`'s id equals the envelope's id; a parse
success with a differing id yields `MismatchedIdError` carrying the
envelope id and the payload id; a parse failure is propagated. -/
theorem payload_ok_iff_parse_and_id_match
    (fromStr : String → Except String Payload) (e : IncomingEnvelope) :
    (∀ p, IncomingEnvelope.payload fromStr e = .ok p ↔
      (fromStr e.cleartext = .ok p ∧ p.id = e.id)) ∧
    (∀ p, fromStr e.cleartext = .ok p → p.id ≠ e.id →
      IncomingEnvelope.payload fromStr e = .error (.mismatchedId e.id p.id)) ∧
    (∀ m, fromStr e.cleartext = .error m →
      IncomingEnvelope.payload fromStr e = .error (.parseError m)) := by
  refine ⟨?_, ?_, ?_⟩
  · intro p
    cases hp : fromStr e.cleartext with
    | error m => simp [IncomingEnvelope.payload, hp]
    | ok q =>
      by_cases hid : q.id = e.id
      · simp only [IncomingEnvelope.payload, hp, hid, ne_eq, not_true_eq_false,
          if_false, Except.ok.injEq]
        constructor
        · intro h
          subst h
          exact ⟨rfl, hid⟩
        · rintro ⟨h1, _⟩
          exact h1
      · simp only [IncomingEnvelope.payload, hp, ne_eq, hid, not_false_eq_true,
          if_true, Except.ok.injEq]
        constructor
        · intro h
          cases h
        · rintro ⟨h1, h2⟩
          subst h1
          exact absurd h2 hid
  · intro p hp hid
    unfold IncomingEnvelope.payload
    rw [hp]
    simp [hid]
  · intro m hm
    unfold IncomingEnvelope.payload
    rw [hm]

/-- Concrete instantiation of the payload theorem: a cleartext that parses
with a mismatched id yields `MismatchedIdError` with both ids. -/
theorem payload_mismatch_witness :
    IncomingEnvelope.payload
      (fun _ => .ok { id := ⟨"aaa"⟩ })
      { id := ⟨"bbb"⟩, modified := 0, sortindex := none, cleartext := "x" }
    = .error (.mismatchedId ⟨"bbb"⟩ ⟨"aaa"⟩) :=
  (payload_ok_iff_parse_and_id_match
      (fun _ => .ok { id := ⟨"aaa"⟩ })
      { id := ⟨"bbb"⟩, modified := 0, sortindex := none, cleartext := "x" }).2.1
    { id := ⟨"aaa"⟩ } rfl (by decide)

end Sync15

namespace Push

/-- Inserting a record makes it findable under its channel id. -/
theorem findRecord_insertRecord (store : List PushRecord) (r : PushRecord) :
    findRecord (insertRecord store r) r.channel_id = some r := by
  simp [findRecord, insertRecord, List.find?]

/-- Filtering the store cannot break channel-id uniqueness. -/
theorem nodup_ids_filter (store : List PushRecord) (p : PushRecord → Bool)
    (h : (store.map (fun r => r.channel_id)).Nodup) :
    ((store.filter p).map (fun r => r.channel_id)).Nodup :=
  h.sublist ((store.filter_sublist).map _)

/-- Insertion with overwrite preserves channel-id uniqueness. -/
theorem nodup_ids_insertRecord (store : List PushRecord) (r : PushRecord)
    (h : (store.map (fun r => r.channel_id)).Nodup) :
    ((insertRecord store r).map (fun x => x.channel_id)).Nodup := by
  unfold insertRecord
  simp only [List.map_cons, List.nodup_cons]
  constructor
  · intro hmem
    rcases List.mem_map.mp hmem with ⟨x, hx, hcid⟩
    have := List.of_mem_filter hx
    simp only [bne_iff_ne, ne_eq] at this
    exact this hcid
  · exact nodup_ids_filter store _ h

/-- C2: with no stored connection identity, `verify_connection` returns an
empty change list, makes no use of the remote fetch, and leaves the state
untouched. -/
theorem verify_connection_no_identity (st : PushState)
    (remote : Except PushError (List String)) (h : st.uaid = none) :
    verify_connection st remote = (.ok [], st) := by
  unfold verify_connection
  rw [h]

/-- Concrete instantiation: verifying with no identity changes nothing. -/
theorem verify_connection_no_identity_witness :
    verify_connection ⟨none, []⟩ (.ok ["c1"]) = (.ok [], ⟨none, []⟩) :=
  verify_connection_no_identity ⟨none, []⟩ (.ok ["c1"]) rfl

/-- C3: `decrypt` on a channel id with no stored record fails with
`RecordNotFoundError`, for every decryption backend (so no key derivation
or decryption step can have been performed). -/
theorem decrypt_unknown_channel (st : PushState) (ece : EceBackends)
    (channel_id body encoding salt dh : String)
    (h : findRecord st.store channel_id = none) :
    decrypt st ece channel_id body encoding salt dh = .error .recordNotFoundError := by
  unfold decrypt
  rw [h]

/-- Concrete instantiation: decrypting an unknown channel is rejected. -/
theorem decrypt_unknown_channel_witness :
    decrypt ⟨some "uaid1", []⟩
      ⟨fun _ b _ _ => .ok b, fun _ b => .ok b⟩
      "chan9" "body" "aes128gcm" "" "" = .error .recordNotFoundError :=
  decrypt_unknown_channel ⟨some "uaid1", []⟩
    ⟨fun _ b _ _ => .ok b, fun _ b => .ok b⟩ "chan9" "body" "aes128gcm" "" "" rfl

/-- C4: when the remote create-channel call fails, `subscribe` persists no
record (the store is exactly what it was), and when an identity was
already stored the create-channel error is returned unchanged with the
whole state untouched. -/
theorem subscribe_create_channel_failure (st : PushState)
    (channel_id scope : String) (server_key : Option String)
    (regRemote : Except PushError String) (genChid : String)
    (keys : KeyMaterial) (e : PushError) (u : String) :
    (subscribe st channel_id scope server_key regRemote genChid keys (.error e)).2.1.store
      = st.store ∧
    (st.uaid = some u →
      subscribe st channel_id scope server_key regRemote genChid keys (.error e)
        = (.error e, st, 0)) := by
  constructor
  · unfold subscribe ensure_registered
    cases h : st.uaid with
    | some v => simp
    | none =>
      cases regRemote with
      | ok v => simp
      | error e2 => simp
  · intro hu
    unfold subscribe ensure_registered
    rw [hu]

/-- Concrete instantiation: a failed create-channel call persists nothing
and surfaces the error. -/
theorem subscribe_create_channel_failure_witness :
    (subscribe ⟨some "uaid1", []⟩ "chan1" "scope1" none (.ok "uaid1") "gen1"
        ⟨"pub", "priv", "auth"⟩ (.error (.communicationError .transient))).2.1.store
      = [] ∧
    subscribe ⟨some "uaid1", []⟩ "chan1" "scope1" none (.ok "uaid1") "gen1"
        ⟨"pub", "priv", "auth"⟩ (.error (.communicationError .transient))
      = (.error (.communicationError .transient), ⟨some "uaid1", []⟩, 0) := by
  have h := subscribe_create_channel_failure ⟨some "uaid1", []⟩ "chan1" "scope1"
    none (.ok "uaid1") "gen1" ⟨"pub", "priv", "auth"⟩
    (.communicationError .transient) "uaid1"
  exact ⟨h.1, h.2 rfl⟩

/-- C8: unsubscribing a specific channel id with no stored record returns
the defined not-found outcome `false` and leaves the state (in particular
the store) exactly as it was, for every remote-call outcome. -/
theorem unsubscribe_unknown_channel (st : PushState) (channel_id : String)
    (remote : Except PushError Unit) (u : String) (hu : st.uaid = some u)
    (hne : channel_id ≠ "") (h : findRecord st.store channel_id = none) :
    unsubscribe st channel_id remote = (.ok false, st) := by
  unfold unsubscribe
  rw [hu]
  simp [hne, h]

/-- Concrete instantiation: unsubscribing an unknown channel id returns
`false` and does not alter the store. -/
theorem unsubscribe_unknown_channel_witness :
    unsubscribe ⟨some "uaid1", [⟨"chan1", "sc", "ep", ⟨"pub", "priv", "auth"⟩, none⟩]⟩
      "chan2" (.ok ())
    = (.ok false, ⟨some "uaid1", [⟨"chan1", "sc", "ep", ⟨"pub", "priv", "auth"⟩, none⟩]⟩) :=
  unsubscribe_unknown_channel
    ⟨some "uaid1", [⟨"chan1", "sc", "ep", ⟨"pub", "priv", "auth"⟩, none⟩]⟩
    "chan2" (.ok ()) "uaid1" rfl (by decide) (by decide)

end Push

namespace Push

/-- C1: with a stored identity and a successful remote fetch of the
channel set R, `verify_connection` reports exactly the local channels not
in R and keeps exactly the records of channels in R (records in both sets
untouched); on an identity-invalid response it reports every previously
local channel and leaves no identity and no records. -/
theorem verify_connection_reconciliation (st : PushState) (u : String)
    (R : List String) (hu : st.uaid = some u) :
    (∀ c, c ∈ reportedIds (verify_connection st (.ok R)).1
      ↔ (c ∈ localIds st ∧ c ∉ R)) ∧
    (verify_connection st (.ok R)).2
      = { st with store := st.store.filter (fun r => r.channel_id ∈ R) } ∧
    (∀ c, c ∈ reportedIds
        (verify_connection st (.error (.communicationError .identityInvalid))).1
      ↔ c ∈ localIds st) ∧
    (verify_connection st (.error (.communicationError .identityInvalid))).2
      = ⟨none, []⟩ := by
  unfold verify_connection
  rw [hu]
  refine ⟨?_, rfl, ?_, rfl⟩
  · intro c
    simp only [reportedIds, List.map_map, localIds, List.mem_map, Function.comp,
      recordChanged, List.mem_filter, decide_not, Bool.not_eq_true',
      decide_eq_false_iff_not]
    constructor
    · rintro ⟨r, ⟨hr, hnot⟩, rfl⟩
      exact ⟨⟨r, hr, rfl⟩, hnot⟩
    · rintro ⟨⟨r, hr, rfl⟩, hnot⟩
      exact ⟨r, ⟨hr, hnot⟩, rfl⟩
  · intro c
    simp [reportedIds, List.map_map, localIds, List.mem_map, Function.comp,
      recordChanged]

/-- Concrete instantiation: with local channels c1, c2 and remote set
containing only c1, verification reports exactly c2 and keeps c1; an
identity-invalid response reports both and empties the state. -/
theorem verify_connection_reconciliation_witness :
    (("c2" ∈ reportedIds (verify_connection
        ⟨some "uaid1", [⟨"c1", "s1", "e1", ⟨"p1", "q1", "a1"⟩, none⟩,
                        ⟨"c2", "s2", "e2", ⟨"p2", "q2", "a2"⟩, none⟩]⟩
        (.ok ["c1"])).1)
      ↔ ("c2" ∈ localIds ⟨some "uaid1", [⟨"c1", "s1", "e1", ⟨"p1", "q1", "a1"⟩, none⟩,
                        ⟨"c2", "s2", "e2", ⟨"p2", "q2", "a2"⟩, none⟩]⟩ ∧ "c2" ∉ ["c1"])) ∧
    (verify_connection
        ⟨some "uaid1", [⟨"c1", "s1", "e1", ⟨"p1", "q1", "a1"⟩, none⟩,
                        ⟨"c2", "s2", "e2", ⟨"p2", "q2", "a2"⟩, none⟩]⟩
        (.error (.communicationError .identityInvalid))).2 = ⟨none, []⟩ := by
  have h := verify_connection_reconciliation
    ⟨some "uaid1", [⟨"c1", "s1", "e1", ⟨"p1", "q1", "a1"⟩, none⟩,
                    ⟨"c2", "s2", "e2", ⟨"p2", "q2", "a2"⟩, none⟩]⟩
    "uaid1" ["c1"] rfl
  exact ⟨h.1 "c2", h.2.2.2⟩

/-- C7: with a stored identity, unsubscribing the empty channel id deletes
every local record, returning `true` when the bulk-delete succeeds and
failing soft with `false` (not an error) when it reports identity-invalid;
unsubscribing a specific stored channel id likewise returns `false` on
identity-invalid and `true` on success. -/
theorem unsubscribe_empty_and_identity_invalid (st : PushState) (u : String)
    (hu : st.uaid = some u) :
    unsubscribe st "" (.ok ()) = (.ok true, { st with store := [] }) ∧
    unsubscribe st "" (.error (.communicationError .identityInvalid))
      = (.ok false, { st with store := [] }) ∧
    (∀ channel_id r, channel_id ≠ "" → findRecord st.store channel_id = some r →
      (unsubscribe st channel_id (.error (.communicationError .identityInvalid))).1
        = .ok false) ∧
    (∀ channel_id r, channel_id ≠ "" → findRecord st.store channel_id = some r →
      (unsubscribe st channel_id (.ok ())).1 = .ok true) := by
  refine ⟨?_, ?_, ?_, ?_⟩
  · unfold unsubscribe
    rw [hu]
    simp
  · unfold unsubscribe
    rw [hu]
    simp
  · intro channel_id r hne hr
    unfold unsubscribe
    rw [hu]
    simp [hne, hr]
  · intro channel_id r hne hr
    unfold unsubscribe
    rw [hu]
    simp [hne, hr]

/-- Concrete instantiation: an empty-channel unsubscribe empties the store
and fails soft on identity-invalid; a stored channel returns `false` on
identity-invalid and `true` on success. -/
theorem unsubscribe_empty_and_identity_invalid_witness :
    unsubscribe ⟨some "uaid1", [⟨"c1", "s1", "e1", ⟨"p1", "q1", "a1"⟩, none⟩]⟩ ""
        (.error (.communicationError .identityInvalid))
      = (.ok false, ⟨some "uaid1", []⟩) ∧
    (unsubscribe ⟨some "uaid1", [⟨"c1", "s1", "e1", ⟨"p1", "q1", "a1"⟩, none⟩]⟩ "c1"
        (.ok ())).1 = .ok true := by
  have h := unsubscribe_empty_and_identity_invalid
    ⟨some "uaid1", [⟨"c1", "s1", "e1", ⟨"p1", "q1", "a1"⟩, none⟩]⟩ "uaid1" rfl
  exact ⟨h.2.1, h.2.2.2 "c1" ⟨"c1", "s1", "e1", ⟨"p1", "q1", "a1"⟩, none⟩
    (by decide) (by decide)⟩

end Push

namespace Push

/-- Registration never touches the subscription store. -/
theorem ensure_registered_store (st : PushState)
    (regRemote : Except PushError String) :
    (ensure_registered st regRemote).2.1.store = st.store := by
  unfold ensure_registered
  cases hu : st.uaid with
  | some u => rfl
  | none => cases regRemote <;> rfl

/-- A subscribe call preserves channel-id uniqueness. -/
theorem uniqIds_subscribe (st : PushState) (channel_id scope : String)
    (server_key : Option String) (regRemote : Except PushError String)
    (genChid : String) (keys : KeyMaterial)
    (createRemote : Except PushError String) (h : uniqIds st) :
    uniqIds (subscribe st channel_id scope server_key regRemote genChid keys
      createRemote).2.1 := by
  have hstore := ensure_registered_store st regRemote
  unfold subscribe
  split
  next e st1 n heq =>
    rw [heq] at hstore
    have h1 : (st1.store.map (fun r => r.channel_id)).Nodup := by
      rw [hstore]; exact h
    exact h1
  next v st1 n heq =>
    rw [heq] at hstore
    have h1 : (st1.store.map (fun r => r.channel_id)).Nodup := by
      rw [hstore]; exact h
    cases createRemote with
    | error e => exact h1
    | ok endpoint => exact nodup_ids_insertRecord st1.store _ h1

/-- An unsubscribe call preserves channel-id uniqueness. -/
theorem uniqIds_unsubscribe (st : PushState) (channel_id : String)
    (remote : Except PushError Unit) (h : uniqIds st) :
    uniqIds (unsubscribe st channel_id remote).2 := by
  unfold unsubscribe
  split
  · exact h
  · split
    · split <;> first | exact h | simp [uniqIds, localIds]
    · split
      · exact h
      · split <;> first
          | exact nodup_ids_filter st.store _ h
          | exact h

/-- An unsubscribe-all call preserves channel-id uniqueness. -/
theorem uniqIds_unsubscribe_all (st : PushState)
    (remote : Except PushError Unit) (h : uniqIds st) :
    uniqIds (unsubscribe_all st remote).2 := by
  unfold unsubscribe_all
  split
  · exact h
  · split <;> first | exact h | simp [uniqIds, localIds]

/-- A verify-connection call preserves channel-id uniqueness. -/
theorem uniqIds_verify_connection (st : PushState)
    (remote : Except PushError (List String)) (h : uniqIds st) :
    uniqIds (verify_connection st remote).2 := by
  unfold verify_connection
  split
  · exact h
  · split <;> first
      | exact nodup_ids_filter st.store _ h
      | exact h
      | simp [uniqIds, localIds]

/-- Every single manager operation preserves channel-id uniqueness. -/
theorem uniqIds_stepState (st : PushState) (op : PushOp) (h : uniqIds st) :
    uniqIds (stepState st op) := by
  cases op with
  | sub channel_id scope server_key regRemote genChid keys createRemote =>
    exact uniqIds_subscribe st channel_id scope server_key regRemote genChid
      keys createRemote h
  | unsub channel_id remote => exact uniqIds_unsubscribe st channel_id remote h
  | unsubAll remote => exact uniqIds_unsubscribe_all st remote h
  | verify remote => exact uniqIds_verify_connection st remote h

/-- C5: starting from any state whose store has unique channel ids (in
particular the empty one), every sequence of manager operations — subscribe
calls with given or generated channel ids included — leaves the store with
no two records sharing a channel id. -/
theorem store_channel_ids_unique (st : PushState) (ops : List PushOp)
    (h : uniqIds st) : uniqIds (ops.foldl stepState st) := by
  induction ops generalizing st with
  | nil => exact h
  | cons op rest ih => exact ih (stepState st op) (uniqIds_stepState st op h)

/-- Concrete instantiation: two subscribes to the same channel id followed
by a verification leave the store with unique channel ids. -/
theorem store_channel_ids_unique_witness :
    uniqIds (([PushOp.sub "c1" "s" none (.ok "u1") "g" ⟨"p", "q", "a"⟩ (.ok "e1"),
               PushOp.sub "c1" "s" none (.ok "u1") "g" ⟨"p", "q", "a"⟩ (.ok "e2"),
               PushOp.verify (.ok ["c1"])]).foldl stepState ⟨none, []⟩) :=
  store_channel_ids_unique ⟨none, []⟩
    [PushOp.sub "c1" "s" none (.ok "u1") "g" ⟨"p", "q", "a"⟩ (.ok "e1"),
     PushOp.sub "c1" "s" none (.ok "u1") "g" ⟨"p", "q", "a"⟩ (.ok "e2"),
     PushOp.verify (.ok ["c1"])] (by decide)

/-- C6: a subscribe on a state with no stored identity performs exactly
one registration call and persists the returned identity; a second
subscribe in the same session then performs no registration call at all,
whatever its other inputs or outcomes. -/
theorem subscribe_registration_laziness (st : PushState)
    (u channel_id scope genChid : String) (server_key : Option String)
    (keys : KeyMaterial) (createRemote : Except PushError String)
    (channel_id2 scope2 genChid2 : String) (server_key2 : Option String)
    (keys2 : KeyMaterial) (regRemote2 createRemote2 : Except PushError String)
    (h : st.uaid = none) :
    (subscribe st channel_id scope server_key (.ok u) genChid keys
      createRemote).2.2 = 1 ∧
    (subscribe st channel_id scope server_key (.ok u) genChid keys
      createRemote).2.1.uaid = some u ∧
    (subscribe (subscribe st channel_id scope server_key (.ok u) genChid keys
        createRemote).2.1
      channel_id2 scope2 server_key2 regRemote2 genChid2 keys2
      createRemote2).2.2 = 0 := by
  unfold subscribe ensure_registered
  rw [h]
  cases createRemote <;> cases createRemote2 <;> simp

/-- Concrete instantiation: the first subscribe registers once, the second
does not register again. -/
theorem subscribe_registration_laziness_witness :
    (subscribe ⟨none, []⟩ "c1" "sc" none (.ok "u1") "g1" ⟨"p", "q", "a"⟩
      (.ok "e1")).2.2 = 1 ∧
    (subscribe ⟨none, []⟩ "c1" "sc" none (.ok "u1") "g1" ⟨"p", "q", "a"⟩
      (.ok "e1")).2.1.uaid = some "u1" ∧
    (subscribe (subscribe ⟨none, []⟩ "c1" "sc" none (.ok "u1") "g1"
        ⟨"p", "q", "a"⟩ (.ok "e1")).2.1
      "c2" "sc2" none (.ok "u2") "g2" ⟨"p2", "q2", "a2"⟩ (.ok "e2")).2.2 = 0 :=
  subscribe_registration_laziness ⟨none, []⟩ "u1" "c1" "sc" "g1" none
    ⟨"p", "q", "a"⟩ (.ok "e1") "c2" "sc2" "g2" none ⟨"p2", "q2", "a2"⟩
    (.ok "u2") (.ok "e2") rfl

/-- C9: for every plaintext and every record created by a successful
subscribe, encrypting with that subscription's public key and auth secret
under any correct WebPush encryption implementation (one whose decryption
backends invert it on matching key material) and then decrypting with the
matching channel id yields the original plaintext, for both the legacy
`aesgcm` scheme with explicit dh/salt headers and the `aes128gcm` scheme. -/
theorem subscribe_decrypt_roundtrip (st : PushState)
    (u channel_id scope genChid endpoint pt salt dh : String)
    (server_key : Option String) (keys : KeyMaterial) (ece : EceBackends)
    (encGcm : String → String → String → String → String → String)
    (enc128 : String → String → String → String)
    (hu : st.uaid = some u)
    (hgcm : ∀ k p s d,
      ece.aesgcm k (encGcm k.public_key k.auth_secret p s d) s d = .ok p)
    (h128 : ∀ k p,
      ece.aes128gcm k (enc128 k.public_key k.auth_secret p) = .ok p) :
    decrypt (subscribe st channel_id scope server_key (.ok u) genChid keys
        (.ok endpoint)).2.1
      ece (if channel_id = "" then genChid else channel_id)
      (encGcm keys.public_key keys.auth_secret pt salt dh) "aesgcm" salt dh
      = .ok pt ∧
    decrypt (subscribe st channel_id scope server_key (.ok u) genChid keys
        (.ok endpoint)).2.1
      ece (if channel_id = "" then genChid else channel_id)
      (enc128 keys.public_key keys.auth_secret pt) "aes128gcm" salt dh
      = .ok pt := by
  have hst : (subscribe st channel_id scope server_key (.ok u) genChid keys
      (.ok endpoint)).2.1.store
      = insertRecord st.store
          ⟨if channel_id = "" then genChid else channel_id, scope, endpoint,
            keys, server_key⟩ := by
    unfold subscribe ensure_registered
    rw [hu]
  constructor
  · unfold decrypt
    rw [hst, findRecord_insertRecord]
    exact hgcm keys pt salt dh
  · unfold decrypt
    rw [hst, findRecord_insertRecord]
    exact h128 keys pt

/-- Concrete instantiation of the round-trip with a toy encryption scheme
that satisfies the inversion hypotheses. -/
theorem subscribe_decrypt_roundtrip_witness :
    decrypt (subscribe ⟨some "u1", []⟩ "c1" "sc" none (.ok "u1") "g1"
        ⟨"pub", "priv", "auth"⟩ (.ok "ep")).2.1
      ⟨fun _ b _ _ => .ok b, fun _ b => .ok b⟩ "c1" "hello" "aesgcm" "s" "d"
      = .ok "hello" ∧
    decrypt (subscribe ⟨some "u1", []⟩ "c1" "sc" none (.ok "u1") "g1"
        ⟨"pub", "priv", "auth"⟩ (.ok "ep")).2.1
      ⟨fun _ b _ _ => .ok b, fun _ b => .ok b⟩ "c1" "hello" "aes128gcm" "s" "d"
      = .ok "hello" :=
  subscribe_decrypt_roundtrip ⟨some "u1", []⟩ "u1" "c1" "sc" "g1" "ep"
    "hello" "s" "d" none ⟨"pub", "priv", "auth"⟩
    ⟨fun _ b _ _ => .ok b, fun _ b => .ok b⟩
    (fun _ _ p _ _ => p) (fun _ _ p => p) rfl
    (fun _ _ _ _ => rfl) (fun _ _ => rfl)

end Push
